import Mathlib

/-!
Shallow embedding of the `md-models-macro` schema-to-type-shape compiler
(`src/lib.rs`). Rust token streams are modelled symbolically: identifiers and
type paths are plain strings, generated attributes are small inductive values,
and the panics of the procedural macro are modelled as `Except.error`.
-/

/-- The nine reserved identifiers (`FORBIDDEN_NAMES` in `src/lib.rs`). -/
def FORBIDDEN_NAMES : List String :=
  ["type", "struct", "enum", "use", "crate", "mod", "fn", "impl", "trait"]

/-- The fixed primitive mapping table (`TYPE_MAPPINGS` in `src/lib.rs`).
A `HashMap` with distinct literal keys is modelled as an association list. -/
def TYPE_MAPPINGS : List (String × String) :=
  [("integer", "i32"), ("float", "f32"), ("string", "String"), ("boolean", "bool")]

/-- `is_reserved` from `src/lib.rs`: membership in `FORBIDDEN_NAMES`. -/
def is_reserved (name : String) : Bool :=
  FORBIDDEN_NAMES.contains name

/-- Result of the Type Mapper (`enum DataTypes` in `src/lib.rs`):
either a parsed primitive type path or a bare identifier naming another
generated type. -/
inductive DataTypes
  | BaseType (t : String)
  | ComplexType (i : String)
deriving DecidableEq, Repr

/-- ASCII model of `proc_macro2`'s identifier lexing: nonempty, starts with a
letter or underscore, continues with letters, digits or underscores, and is
not the lone underscore. Keywords are accepted, matching `Ident::new`. -/
def is_valid_ident (s : String) : Bool :=
  match s.data with
  | [] => false
  | c :: cs =>
    !(s == "_") && (c.isAlpha || c == '_') && cs.all (fun d => d.isAlphanum || d == '_')

/-- Model of `syn::parse_str::<syn::Type>` restricted to what the macro feeds
it: a plain path identifier; an `Err` here travels in the `Result` and is
turned into the `Unknown data type` panic at the call site. -/
def syn_parse_type (s : String) : Except String String :=
  if is_valid_ident s then Except.ok s else Except.error s

/-- Model of `syn::Ident::new` (`src/lib.rs:167`): returns the identifier, or
`none` for the panic it raises on a string that is not a lexically valid
identifier (for example `""`, `"foo bar"`, `"1st"`). -/
def syn_ident_new (s : String) : Option String :=
  if is_valid_ident s then some s else none

/-- How a run of the Type Mapper can abort: `parseError` is an `Err` from
`syn::parse_str` carried in the returned `Result`, `identPanic` is the panic
escaping from `syn::Ident::new` on a lexically invalid type name. -/
inductive TypeMapperError
  | parseError (s : String)
  | identPanic (s : String)
deriving DecidableEq, Repr

/-- `get_data_type` from `src/lib.rs`: look the raw type name up in
`TYPE_MAPPINGS`; a hit is parsed as a primitive type, a miss is handed to
`syn::Ident::new` to become a bare identifier referring to another generated
type — which panics when the name is not a legal identifier. -/
def get_data_type (dtype : String) : Except TypeMapperError DataTypes :=
  match TYPE_MAPPINGS.lookup dtype with
  | some t =>
    match syn_parse_type t with
    | Except.ok ft => Except.ok (DataTypes.BaseType ft)
    | Except.error e => Except.error (TypeMapperError.parseError e)
  | none =>
    match syn_ident_new dtype with
    | some i => Except.ok (DataTypes.ComplexType i)
    | none => Except.error (TypeMapperError.identPanic dtype)

/-- Symbolic Rust type expressions as produced by `wrap_dtype`. -/
inductive RustType
  | path (s : String)
  | option (t : RustType)
  | vec (t : RustType)
deriving DecidableEq, Repr

/-- `wrap_dtype` from `src/lib.rs`: combine the resolved type with the
`is_array` and `required` flags, following the source's two `match` arms and
`if` chains verbatim. -/
def wrap_dtype (is_array required : Bool) (dtype : DataTypes) : RustType :=
  match dtype with
  | DataTypes.BaseType base_type =>
    if required && !is_array then RustType.path base_type
    else if !required && !is_array then RustType.option (RustType.path base_type)
    else if required && is_array then RustType.vec (RustType.path base_type)
    else RustType.option (RustType.vec (RustType.path base_type))
  | DataTypes.ComplexType complex_type =>
    if required && !is_array then RustType.path complex_type
    else if !required && !is_array then RustType.option (RustType.path complex_type)
    else RustType.vec (RustType.path complex_type)

/-- One argument inside `setter(into, ...)` of a `#[builder(...)]` attribute. -/
inductive SetterArg
  | strip_option
  | each (add_name : String) (into : Bool)
deriving DecidableEq, Repr

/-- The `#[builder(default, setter(into, ...))]` attribute synthesized per
field. `has_default` and `setter_into` record the unconditional `default` and
`into` items of the source's `quote!`. -/
structure BuilderAttr where
  has_default : Bool
  setter_into : Bool
  setter_args : List SetterArg
deriving DecidableEq, Repr

/-- `get_builder_attr` from `src/lib.rs`: `strip_option` is pushed when the
field is not required, then `each(name = to_<name>, into)` when it is an
array; `default` and the leading `into` are always present. -/
def get_builder_attr (is_array required : Bool) (name : String) : BuilderAttr :=
  let setter_args :=
    (if !required then [SetterArg.strip_option] else []) ++
    (if is_array then [SetterArg.each ("to_" ++ name) true] else [])
  { has_default := true, setter_into := true, setter_args := setter_args }

/-- The serde attribute synthesized per field. -/
inductive SerdeAttr
  | skip_serializing_if_none
  | serde_default
  | no_attr
deriving DecidableEq, Repr

/-- `get_serde_attr` from `src/lib.rs`. -/
def get_serde_attr (is_array required : Bool) : SerdeAttr :=
  if !required && !is_array then SerdeAttr.skip_serializing_if_none
  else if is_array then SerdeAttr.serde_default
  else SerdeAttr.no_attr

/-- Word separators recognized by the case transforms of the `convert_case`
crate as used here (snake, kebab, space). -/
def isSeparator (c : Char) : Bool :=
  c == '_' || c == '-' || c == ' '

/-- Split a character list on separators; separators are dropped. -/
def splitOnSep : List Char → List (List Char)
  | [] => [[]]
  | c :: cs =>
    let r := splitOnSep cs
    if isSeparator c then [] :: r
    else
      match r with
      | [] => [[c]]
      | w :: ws => (c :: w) :: ws

/-- Capitalize the first character of a word and lowercase the rest. -/
def capitalizeWord : List Char → List Char
  | [] => []
  | c :: cs => c.toUpper :: cs.map Char.toLower

/-- `to_camel` from `src/lib.rs`: upper-camel-case transform
(model of `convert_case`'s `Case::UpperCamel`). -/
def to_camel (s : String) : String :=
  String.mk ((splitOnSep s.data).foldr (fun w acc => capitalizeWord w ++ acc) [])

/-- `to_snake` from `src/lib.rs`: snake-case transform
(model of `convert_case`'s `Case::Snake`). -/
def to_snake (s : String) : String :=
  String.mk (List.intercalate ['_'] ((splitOnSep s.data).map (List.map Char.toLower)))

/-- One generated enum variant: its identifier and whether the `#[default]`
marker was attached to it. -/
structure EnumVariant where
  vname : String
  isDefault : Bool
deriving DecidableEq, Repr

/-- The output of `generate_enum`: the enum identifier, the variant list, and
the arms of the generated `Display` match (variant identifier paired with the
serialized value it stringifies to). -/
structure GeneratedEnum where
  ename : String
  variants : List EnumVariant
  arms : List (String × String)
deriving DecidableEq, Repr

/-- The `for (key, value) in mappings` loop of `generate_enum`, carrying the
source's `index` counter: the `#[default]` marker is attached exactly on the
iteration where `index == 0`, and `index` is incremented only there. -/
def generate_enum_loop : Nat → List (String × String) → List EnumVariant × List (String × String)
  | _, [] => ([], [])
  | index, (key, value) :: rest =>
    let variant_name := to_camel key
    if index == 0 then
      let r := generate_enum_loop (index + 1) rest
      ({ vname := variant_name, isDefault := true } :: r.1, (variant_name, value) :: r.2)
    else
      let r := generate_enum_loop index rest
      ({ vname := variant_name, isDefault := false } :: r.1, (variant_name, value) :: r.2)

/-- `generate_enum` from `src/lib.rs`. The `BTreeMap` argument is modelled as
its iteration sequence: a key-sorted duplicate-free association list. -/
def generate_enum (mappings : List (String × String)) (name : String) : GeneratedEnum :=
  let r := generate_enum_loop 0 mappings
  { ename := name, variants := r.1, arms := r.2 }

/-- `AttributeDef` consumed by the macro (field of the loaded `DataModel`). -/
structure Attribute where
  name : String
  dtypes : List String
  is_array : Bool
  required : Bool
deriving DecidableEq, Repr

/-- `ObjectDef` consumed by the macro. -/
structure Object where
  name : String
  attributes : List Attribute
deriving DecidableEq, Repr

/-- `EnumDef` consumed by the macro; `mappings` is the key-sorted iteration
sequence of the `BTreeMap`. -/
structure EnumDef where
  name : String
  mappings : List (String × String)
deriving DecidableEq, Repr

/-- The loaded `DataModel` value handed to the generation core. -/
structure Model where
  name : Option String
  objects : List Object
  enums : List EnumDef
deriving DecidableEq, Repr

/-- The panics of `parse_mdmodel`, modelled as error values: a reserved
object/enum name, the `Unknown data type` panic raised when `get_data_type`
returns `Err`, the identifier-lexing panic escaping from `syn::Ident::new`
inside `get_data_type`, and the index panic on `attribute.dtypes[0]` when
`dtypes` is empty. -/
inductive GenError
  | reservedName (n : String)
  | unknownDataType (n : String)
  | invalidIdent (n : String)
  | emptyDtypes (attrName : String)
deriving DecidableEq, Repr

/-- One generated struct field with its attributes. -/
structure GenField where
  fname : String
  ty : RustType
  builder : BuilderAttr
  serde : SerdeAttr
deriving DecidableEq, Repr

/-- One generated struct: fields plus accessor names (`get_<attr>`,
`set_<attr>`). -/
structure Struct where
  sname : String
  fields : List GenField
  getters : List String
  setters : List String
deriving DecidableEq, Repr

/-- The generated module: namespace ident plus every struct and enum. -/
structure GenModule where
  mname : String
  structs : List Struct
  enums : List GeneratedEnum
deriving DecidableEq, Repr

/-- Run a fallible generator over a list, stopping at the first error —
the model of a Rust `for` loop whose body can `panic!`. -/
def collect {α β ε : Type} (f : α → Except ε β) : List α → Except ε (List β)
  | [] => Except.ok []
  | x :: xs =>
    match f x with
    | Except.error e => Except.error e
    | Except.ok y =>
      match collect f xs with
      | Except.error e => Except.error e
      | Except.ok ys => Except.ok (y :: ys)

/-- The per-attribute body of the object loop in `parse_mdmodel`: index
`dtypes[0]` (panicking if absent), resolve it, wrap it, and attach the
builder and serde attributes. -/
def gen_field (a : Attribute) : Except GenError GenField :=
  match a.dtypes with
  | [] => Except.error (GenError.emptyDtypes a.name)
  | d :: _ =>
    match get_data_type d with
    | Except.error (TypeMapperError.parseError _) => Except.error (GenError.unknownDataType d)
    | Except.error (TypeMapperError.identPanic _) => Except.error (GenError.invalidIdent d)
    | Except.ok field_type =>
      Except.ok
        { fname := a.name
          ty := wrap_dtype a.is_array a.required field_type
          builder := get_builder_attr a.is_array a.required a.name
          serde := get_serde_attr a.is_array a.required }

/-- The per-object body of `parse_mdmodel`: the reserved-name check runs
first, then each attribute is synthesized. -/
def gen_struct (o : Object) : Except GenError Struct :=
  if is_reserved o.name then Except.error (GenError.reservedName o.name)
  else
    match collect gen_field o.attributes with
    | Except.error e => Except.error e
    | Except.ok fields =>
      Except.ok
        { sname := o.name
          fields := fields
          getters := o.attributes.map (fun a => "get_" ++ a.name)
          setters := o.attributes.map (fun a => "set_" ++ a.name) }

/-- The per-enum body of `parse_mdmodel`: reserved-name check, then
`generate_enum`. -/
def gen_enum_def (e : EnumDef) : Except GenError GeneratedEnum :=
  if is_reserved e.name then Except.error (GenError.reservedName e.name)
  else Except.ok (generate_enum e.mappings e.name)

/-- `parse_mdmodel` from `src/lib.rs`, after the (out-of-scope) markdown
load: validate and synthesize every object, then every enum, then assemble
the module under the snake-cased model name (defaulting to `"model"`). A
panic anywhere aborts the whole run with no output. -/
def parse_mdmodel (m : Model) : Except GenError GenModule :=
  match collect gen_struct m.objects with
  | Except.error e => Except.error e
  | Except.ok structs =>
    match collect gen_enum_def m.enums with
    | Except.error e => Except.error e
    | Except.ok enums =>
      Except.ok
        { mname := to_snake (m.name.getD "model")
          structs := structs
          enums := enums }

/-! ### Helper lemmas -/

lemma collect_error_of_mem {α β ε : Type} (f : α → Except ε β) (xs : List α) (x : α)
    (hx : x ∈ xs) (e : ε) (he : f x = Except.error e) :
    ∃ e2, collect f xs = Except.error e2 := by
  induction xs with
  | nil => cases hx
  | cons a as ih =>
    rcases List.mem_cons.mp hx with rfl | hmem
    · exact ⟨e, by simp [collect, he]⟩
    · cases hfa : f a with
      | error e3 => exact ⟨e3, by simp [collect, hfa]⟩
      | ok y =>
        obtain ⟨e2, hc⟩ := ih hmem
        exact ⟨e2, by simp [collect, hfa, hc]⟩

lemma generate_enum_loop_pos (index : Nat) (h : index ≠ 0) (ms : List (String × String)) :
    generate_enum_loop index ms =
      (ms.map (fun p => { vname := to_camel p.1, isDefault := false }),
       ms.map (fun p => (to_camel p.1, p.2))) := by
  induction ms generalizing index with
  | nil => simp [generate_enum_loop]
  | cons hd tl ih =>
    obtain ⟨k, v⟩ := hd
    simp [generate_enum_loop, h, ih index h]

lemma generate_enum_cons (k v : String) (rest : List (String × String)) (n : String) :
    generate_enum ((k, v) :: rest) n =
      { ename := n
        variants := { vname := to_camel k, isDefault := true } ::
          rest.map (fun p => { vname := to_camel p.1, isDefault := false })
        arms := (to_camel k, v) :: rest.map (fun p => (to_camel p.1, p.2)) } := by
  simp [generate_enum, generate_enum_loop, generate_enum_loop_pos 1 one_ne_zero]

lemma lookup_type_mappings_none (s : String)
    (h1 : s ≠ "integer") (h2 : s ≠ "float") (h3 : s ≠ "string") (h4 : s ≠ "boolean") :
    TYPE_MAPPINGS.lookup s = none := by
  have e1 : (s == "integer") = false := by simp [h1]
  have e2 : (s == "float") = false := by simp [h2]
  have e3 : (s == "string") = false := by simp [h3]
  have e4 : (s == "boolean") = false := by simp [h4]
  simp [TYPE_MAPPINGS, List.lookup, e1, e2, e3, e4]

/-! ### Spec-side definitions for the refinement claims -/

/-- The four field shapes of §4.2 of the spec. -/
inductive FieldShape
  | Bare
  | Optional
  | Sequence
  | OptionalSequence
deriving DecidableEq, Repr

/-- The §4.2 decision table, transcribed from the spec's words: rows are
`(required, is_array)`, and in the last row a reference type collapses to a
plain sequence while a primitive keeps the optional wrapper. -/
def spec_field_shape (is_reference required is_array : Bool) : FieldShape :=
  match required, is_array with
  | true, false => FieldShape.Bare
  | false, false => FieldShape.Optional
  | true, true => FieldShape.Sequence
  | false, true => if is_reference then FieldShape.Sequence else FieldShape.OptionalSequence

/-- Interpret a field shape over an inner type. -/
def shape_apply : FieldShape → RustType → RustType
  | FieldShape.Bare, t => t
  | FieldShape.Optional, t => RustType.option t
  | FieldShape.Sequence, t => RustType.vec t
  | FieldShape.OptionalSequence, t => RustType.option (RustType.vec t)

/-- The inner type carried by a Type Mapper result. -/
def dtype_base : DataTypes → RustType
  | DataTypes.BaseType t => RustType.path t
  | DataTypes.ComplexType i => RustType.path i

/-- Whether a Type Mapper result is a reference to another generated type. -/
def dtype_is_reference : DataTypes → Bool
  | DataTypes.BaseType _ => false
  | DataTypes.ComplexType _ => true

/-! ### Claim theorems -/

/-- C1: for every resolved type and every `(required, is_array)` combination,
`wrap_dtype` produces exactly the field shape prescribed by the §4.2 decision
table, including the collapse of an optional array of a reference type to a
plain sequence. -/
theorem wrap_dtype_matches_table (is_array required : Bool) (dt : DataTypes) :
    wrap_dtype is_array required dt =
      shape_apply (spec_field_shape (dtype_is_reference dt) required is_array) (dtype_base dt) := by
  cases dt <;> cases is_array <;> cases required <;> rfl

/-- C2 counterexample: the Type Mapper does not succeed on every input
string — on a name that is not a lexically valid identifier it aborts with
the panic from `syn::Ident::new` instead of returning a reference. -/
theorem get_data_type_not_total :
    get_data_type "foo bar" = Except.error (TypeMapperError.identPanic "foo bar") := rfl

/-- C2 (amended): the Type Mapper returns `BaseType` with the fixed symbol
for exactly the four recognized names, and `ComplexType` with the name itself
for any other string that is a lexically valid identifier — unresolved names
are never validated against the set of generated types; on a lexically
invalid name, however, it aborts with the `syn::Ident::new` panic rather than
succeeding. -/
theorem get_data_type_spec (s : String) :
    get_data_type "integer" = Except.ok (DataTypes.BaseType "i32")
  ∧ get_data_type "float" = Except.ok (DataTypes.BaseType "f32")
  ∧ get_data_type "string" = Except.ok (DataTypes.BaseType "String")
  ∧ get_data_type "boolean" = Except.ok (DataTypes.BaseType "bool")
  ∧ (s ≠ "integer" → s ≠ "float" → s ≠ "string" → s ≠ "boolean" →
      is_valid_ident s = true →
      get_data_type s = Except.ok (DataTypes.ComplexType s))
  ∧ (s ≠ "integer" → s ≠ "float" → s ≠ "string" → s ≠ "boolean" →
      is_valid_ident s = false →
      get_data_type s = Except.error (TypeMapperError.identPanic s)) := by
  refine ⟨rfl, rfl, rfl, rfl, ?_, ?_⟩
  · intro h1 h2 h3 h4 hv
    simp [get_data_type, lookup_type_mappings_none s h1 h2 h3 h4, syn_ident_new, hv]
  · intro h1 h2 h3 h4 hv
    simp [get_data_type, lookup_type_mappings_none s h1 h2 h3 h4, syn_ident_new, hv]

/-- C2 witness: an unrecognized but lexically valid name is mapped to a
reference, not rejected. -/
theorem get_data_type_spec_witness :
    get_data_type "Person" = Except.ok (DataTypes.ComplexType "Person") :=
  (get_data_type_spec "Person").2.2.2.2.1
    (by decide) (by decide) (by decide) (by decide) (by decide)

/-- C4: the Name Validator rejects a name iff it equals one of the nine
reserved identifiers, case-sensitively; `"Type"` is accepted while `"type"`
is rejected. -/
theorem is_reserved_spec (name : String) :
    (is_reserved name = true ↔
      name = "type" ∨ name = "struct" ∨ name = "enum" ∨ name = "use" ∨
      name = "crate" ∨ name = "mod" ∨ name = "fn" ∨ name = "impl" ∨ name = "trait")
  ∧ is_reserved "Type" = false ∧ is_reserved "type" = true := by
  refine ⟨?_, by decide, by decide⟩
  simp [is_reserved, FORBIDDEN_NAMES]

/-- C3: `generate_enum` derives one variant per mapping entry whose
identifier is the upper-camel-case transform of the key and whose match arm
carries the value string unchanged; the stringification match has exactly one
arm per variant; and on a key-sorted mapping the variant of the
lexicographically smallest key is the unique default variant. -/
theorem generate_enum_spec (ms : List (String × String)) (n : String)
    (hsorted : ms.Pairwise (fun p q => p.1 < q.1)) :
    (generate_enum ms n).ename = n
  ∧ (generate_enum ms n).variants.map EnumVariant.vname = ms.map (fun p => to_camel p.1)
  ∧ (generate_enum ms n).arms = ms.map (fun p => (to_camel p.1, p.2))
  ∧ (generate_enum ms n).arms.map Prod.fst = (generate_enum ms n).variants.map EnumVariant.vname
  ∧ (∀ k v rest, ms = (k, v) :: rest →
      ((generate_enum ms n).variants.filter (fun w => w.isDefault)).map EnumVariant.vname
        = [to_camel k]
    ∧ ∀ q ∈ ms, k = q.1 ∨ k < q.1) := by
  cases ms with
  | nil =>
    refine ⟨rfl, rfl, rfl, rfl, ?_⟩
    intro k v rest h
    cases h
  | cons hd rest =>
    obtain ⟨k0, v0⟩ := hd
    rw [generate_enum_cons]
    refine ⟨rfl, by simp, by simp, by simp [Function.comp], ?_⟩
    intro k v r h
    obtain ⟨⟨rfl, rfl⟩, rfl⟩ : (k0 = k ∧ v0 = v) ∧ rest = r := by
      constructor
      · exact Prod.mk.injEq .. ▸ (List.cons.injEq .. ▸ h).1
      · exact (List.cons.injEq .. ▸ h).2
    constructor
    · simp
      rintro a x y hmem rfl
      rfl
    · intro q hq
      rcases List.mem_cons.mp hq with rfl | hmem
      · exact Or.inl rfl
      · exact Or.inr ((List.pairwise_cons.mp hsorted).1 q hmem)

/-- C3 witness: on the mapping `{"a": "alpha", "b": "beta"}` the default
variant is the one derived from the smallest key `"a"`. -/
theorem generate_enum_spec_witness :
    ((generate_enum [("a", "alpha"), ("b", "beta")] "E").variants.filter
        (fun w => w.isDefault)).map EnumVariant.vname = [to_camel "a"] :=
  ((generate_enum_spec [("a", "alpha"), ("b", "beta")] "E"
      (by simp [String.lt_iff_toList_lt]; decide)).2.2.2.2
    "a" "alpha" [("b", "beta")] rfl).1

/-- C5: a reserved object or enum name anywhere in the model makes the whole
generation run abort with an error — no module value is produced — and the
name check fires before any synthesis work for that entity: a reserved-named
entity yields the reserved-name error no matter what its attributes or
mappings contain. -/
theorem reserved_name_aborts (m : Model)
    (h : (∃ o ∈ m.objects, is_reserved o.name = true) ∨
         (∃ e ∈ m.enums, is_reserved e.name = true)) :
    (∃ err, parse_mdmodel m = Except.error err)
  ∧ (∀ o : Object, is_reserved o.name = true →
      gen_struct o = Except.error (GenError.reservedName o.name))
  ∧ (∀ e : EnumDef, is_reserved e.name = true →
      gen_enum_def e = Except.error (GenError.reservedName e.name)) := by
  refine ⟨?_, fun o hr => by simp [gen_struct, hr], fun e hr => by simp [gen_enum_def, hr]⟩
  rcases h with ⟨o, ho, hr⟩ | ⟨e, he, hr⟩
  · obtain ⟨e2, hc⟩ := collect_error_of_mem gen_struct m.objects o ho
      (GenError.reservedName o.name) (by simp [gen_struct, hr])
    exact ⟨e2, by simp [parse_mdmodel, hc]⟩
  · cases hs : collect gen_struct m.objects with
    | error e2 => exact ⟨e2, by simp [parse_mdmodel, hs]⟩
    | ok structs =>
      obtain ⟨e2, hc⟩ := collect_error_of_mem gen_enum_def m.enums e he
        (GenError.reservedName e.name) (by simp [gen_enum_def, hr])
      exact ⟨e2, by simp [parse_mdmodel, hs, hc]⟩

/-- C5 witness: a model whose only object is named `type` fails to generate. -/
theorem reserved_name_aborts_witness :
    ∃ err, parse_mdmodel
        { name := none, objects := [{ name := "type", attributes := [] }], enums := [] }
      = Except.error err :=
  (reserved_name_aborts
      { name := none, objects := [{ name := "type", attributes := [] }], enums := [] }
      (Or.inl ⟨{ name := "type", attributes := [] }, by simp, by decide⟩)).1

/-- C6: the builder descriptor always carries `default` (so every unset field
falls back to an empty/zero value and required fields are not enforced),
contains `strip_option` exactly for optional fields, and contains the
incremental accumulator setter `to_<field>` (with element conversion) exactly
for array fields. -/
theorem get_builder_attr_spec (is_array required : Bool) (name : String) :
    (get_builder_attr is_array required name).has_default = true
  ∧ (get_builder_attr is_array required name).setter_into = true
  ∧ (SetterArg.strip_option ∈ (get_builder_attr is_array required name).setter_args
      ↔ required = false)
  ∧ (SetterArg.each ("to_" ++ name) true ∈ (get_builder_attr is_array required name).setter_args
      ↔ is_array = true) := by
  cases is_array <;> cases required <;> simp [get_builder_attr]

/-- C7: the serde hint is omit-on-encode-when-absent exactly for optional
non-array fields, default-to-empty-sequence-on-decode exactly for array
fields, and absent exactly for bare required fields. -/
theorem get_serde_attr_spec (is_array required : Bool) :
    (get_serde_attr is_array required = SerdeAttr.skip_serializing_if_none
      ↔ (required = false ∧ is_array = false))
  ∧ (get_serde_attr is_array required = SerdeAttr.serde_default ↔ is_array = true)
  ∧ (get_serde_attr is_array required = SerdeAttr.no_attr
      ↔ (required = true ∧ is_array = false)) := by
  cases is_array <;> cases required <;> simp [get_serde_attr]

/-- C8: the generated field — shape, builder descriptor and serde hint — is
determined by the attribute's name, first dtype, `is_array` and `required`
alone: dtype entries beyond index 0 never influence the output. -/
theorem gen_field_first_dtype_wins (name d : String) (rest1 rest2 : List String)
    (is_array required : Bool) :
    gen_field { name := name, dtypes := d :: rest1, is_array := is_array, required := required }
      = gen_field { name := name, dtypes := d :: rest2, is_array := is_array, required := required } :=
  rfl

/-- C9: generation is a pure function of the input model: identical inputs
give identical module descriptions, and identical inputs reproduce identical
failures. -/
theorem parse_mdmodel_deterministic (m1 m2 : Model) (h : m1 = m2) :
    parse_mdmodel m1 = parse_mdmodel m2
  ∧ (∀ e, parse_mdmodel m1 = Except.error e → parse_mdmodel m2 = Except.error e) := by
  subst h
  exact ⟨rfl, fun _ he => he⟩

/-- C9 witness: two runs on the same concrete model value coincide. -/
theorem parse_mdmodel_deterministic_witness :
    parse_mdmodel { name := some "m", objects := [], enums := [] }
      = parse_mdmodel { name := some "m", objects := [], enums := [] } :=
  (parse_mdmodel_deterministic
    { name := some "m", objects := [], enums := [] }
    { name := some "m", objects := [], enums := [] } rfl).1

/-- C10: the Enum Synthesizer performs no non-emptiness check: on an empty
mapping it returns, without error, an enum with zero variants, no default
variant and an empty stringification match. -/
theorem generate_enum_empty_mapping (n : String) (h : is_reserved n = false) :
    gen_enum_def { name := n, mappings := [] }
      = Except.ok { ename := n, variants := [], arms := [] } := by
  simp [gen_enum_def, h, generate_enum, generate_enum_loop]

/-- C10 witness: an enum definition named `Status` with no mappings yields an
empty enum, not an error. -/
theorem generate_enum_empty_mapping_witness :
    gen_enum_def { name := "Status", mappings := [] }
      = Except.ok { ename := "Status", variants := [], arms := [] } :=
  generate_enum_empty_mapping "Status" (by decide)
